import Mathlib

/-!
# Connect cluster lookup helpers

A shallow embedding of `backend/pkg/connect/util.go`:

* `getMapValueOrString`, the fallback lookup on a `map[string]string`;
* `Service.getConnectClusterByName`, the lookup of a connect cluster client in
  `Service.ClientsByCluster`.

Go values are modelled as follows.  A `string` is a Lean `String` (equality of
Lean strings is equality of their UTF-8 bytes).  A map is either the nil map or
a list of bindings read by first match.  A pointer is nil or an address.  The
method has a pointer receiver, so it is embedded as a state computation over
the `Service` it receives.
-/

namespace Connect

/-! ## Go values -/

/-- Zero value of a Go type, the value a map read yields for a missing key. -/
class GoZero (α : Type) where
  /-- The zero value. -/
  zero : α

instance : GoZero String := ⟨""⟩

/-- A Go pointer: nil, or the address of an allocated object.  The lookup never
dereferences a client pointer, so the pointee is not modelled. -/
inductive Ptr where
  | null
  | ref (addr : Nat)
deriving DecidableEq, Repr

instance : GoZero Ptr := ⟨Ptr.null⟩

/-- A Go `map[string]V`: the nil map, or an allocated map holding bindings. -/
inductive GoMap (V : Type) where
  | nilMap
  | alloc (kvs : List (String × V))
deriving DecidableEq, Repr

namespace GoMap

variable {V : Type}

/-- Bindings held by a map; the nil map holds none. -/
def bindings : GoMap V → List (String × V)
  | nilMap => []
  | alloc kvs => kvs

/-- Keys of a map. -/
def keys (m : GoMap V) : List String :=
  m.bindings.map Prod.fst

/-- Number of bindings, Go's `len(m)`. -/
def len (m : GoMap V) : Nat :=
  m.bindings.length

/-- Value bound to a key, if any. -/
def find? (m : GoMap V) (key : String) : Option V :=
  m.bindings.lookup key

/-- The two-result read `v, ok := m[key]`: the bound value and `true`, or the
zero value and `false`.  Reading the nil map is allowed in Go and finds
nothing. -/
def commaOk [GoZero V] (m : GoMap V) (key : String) : V × Bool :=
  match m.find? key with
  | some v => (v, true)
  | none => (GoZero.zero, false)

/-- The one-result read `m[key]`. -/
def index [GoZero V] (m : GoMap V) (key : String) : V :=
  (m.commaOk key).1

end GoMap

/-! ## Library types used by the error value -/

/-- Kinds of `zapcore.Field` (`zapcore.FieldType`), in declaration order up to
the string kind. -/
inductive FieldType where
  | UnknownType
  | ArrayMarshalerType
  | ObjectMarshalerType
  | BinaryType
  | BoolType
  | ByteStringType
  | Complex128Type
  | Complex64Type
  | DurationType
  | Float64Type
  | Float32Type
  | Int64Type
  | Int32Type
  | Int16Type
  | Int8Type
  | StringType
deriving DecidableEq, Repr

/-- A structured log field, `zapcore.Field`; its `Interface` member is nil for
every field built here and is left out. -/
structure Field where
  Key : String
  «Type» : FieldType
  Integer : Int
  String : String
deriving DecidableEq, Repr

/-- Constructor `zap.String(key, val)`. -/
def zapString (key val : String) : Field :=
  { Key := key, «Type» := FieldType.StringType, Integer := 0, String := val }

/-- Status code `http.StatusNotFound`. -/
def StatusNotFound : Int := 404

/-- Error made by `fmt.Errorf` from a format string without verbs and without
arguments, represented by the text its `Error()` method returns. -/
def fmtErrorf (format : String) : String := format

/-- The error value `rest.Error`.  `Err` is the wrapped cause, `none` for a nil
`error`. -/
structure Error where
  Err : Option String
  Status : Int
  Message : String
  InternalLogs : List Field
  IsSilent : Bool
deriving DecidableEq, Repr

/-! ## The service -/

/-- Modelled from the spec: the declaration of `Service` lies outside the
source file.  Its registry `ClientsByCluster` maps a cluster name to a pointer
to an already constructed `ClientWithConfig`; the other members are not read
or written by the lookup. -/
structure Service where
  ClientsByCluster : GoMap Ptr
deriving DecidableEq, Repr

/-! ## The functions of `util.go` -/

/-- Returns the map entry for the given key, or the passed fallback string if
the entry does not exist. -/
def getMapValueOrString (m : GoMap String) (key : String) (fallback : String) : String :=
  match m.commaOk key with
  | (val, true) => val
  | (_, false) => fallback

/-- Method `(s *Service) getConnectClusterByName(clusterName)`: the service is
read through the receiver and handed on as the state after the call. -/
def getConnectClusterByName (clusterName : String) : StateM Service (Ptr × Option Error) := do
  let s ← get
  let (c, «exists») := s.ClientsByCluster.commaOk clusterName
  if !«exists» then
    return (Ptr.null, some {
      Err := some (fmtErrorf "a client for the given cluster name does not exist"),
      Status := StatusNotFound,
      Message := "There's no configured cluster with the given connect cluster name",
      InternalLogs := [zapString "cluster_name" clusterName],
      IsSilent := false })
  return (c, none)

/-! ## Example data -/

/-- Handle of the example cluster `prod`. -/
def handleA : Ptr := Ptr.ref 1

/-- Handle of the example cluster `staging`. -/
def handleB : Ptr := Ptr.ref 2

/-- Example service with the registry `{"prod": handleA, "staging": handleB}`. -/
def exampleService : Service :=
  { ClientsByCluster := GoMap.alloc [("prod", handleA), ("staging", handleB)] }

/-- Example map `{"timeout": "30s"}`. -/
def exampleMap : GoMap String :=
  GoMap.alloc [("timeout", "30s")]

/-- The error built on the failure path for a requested name. -/
def notFoundError (clusterName : String) : Error :=
  { Err := some "a client for the given cluster name does not exist",
    Status := 404,
    Message := "There's no configured cluster with the given connect cluster name",
    InternalLogs := [{ Key := "cluster_name", «Type» := FieldType.StringType,
                       Integer := 0, String := clusterName }],
    IsSilent := false }

/-! ## Facts about maps -/

namespace GoMap

variable {V : Type}

theorem lookup_isSome_iff_mem (kvs : List (String × V)) (k : String) :
    (kvs.lookup k).isSome = true ↔ k ∈ kvs.map Prod.fst := by
  induction kvs with
  | nil => simp
  | cons p tl ih =>
    obtain ⟨a, b⟩ := p
    by_cases hk : k = a
    · subst hk
      simp [List.lookup]
    · have hne : (k == a) = false := by simpa using hk
      simp [List.lookup, hne, ih, hk]

theorem lookup_mem (kvs : List (String × V)) (k : String) (v : V)
    (h : kvs.lookup k = some v) : (k, v) ∈ kvs := by
  induction kvs with
  | nil => simp at h
  | cons p tl ih =>
    obtain ⟨a, b⟩ := p
    by_cases hk : k = a
    · subst hk
      simp [List.lookup] at h
      simp [h]
    · have hne : (k == a) = false := by simpa using hk
      simp only [List.lookup, hne] at h
      exact List.mem_cons_of_mem _ (ih h)

theorem lookup_of_mem_nodup (kvs : List (String × V)) (k : String) (v : V)
    (hnd : (kvs.map Prod.fst).Nodup) (h : (k, v) ∈ kvs) : kvs.lookup k = some v := by
  induction kvs with
  | nil => simp at h
  | cons p tl ih =>
    obtain ⟨a, b⟩ := p
    simp only [List.map_cons, List.nodup_cons] at hnd
    rcases List.mem_cons.mp h with heq | htl
    · cases heq
      simp [List.lookup]
    · have hmem : k ∈ tl.map Prod.fst := List.mem_map.mpr ⟨(k, v), htl, rfl⟩
      have hk : k ≠ a := fun e => hnd.1 (e ▸ hmem)
      have hne : (k == a) = false := by simpa using hk
      simp only [List.lookup, hne]
      exact ih hnd.2 htl

theorem find?_isSome_iff (m : GoMap V) (k : String) :
    (m.find? k).isSome = true ↔ k ∈ m.keys :=
  lookup_isSome_iff_mem m.bindings k

theorem find?_eq_none_iff (m : GoMap V) (k : String) :
    m.find? k = none ↔ k ∉ m.keys := by
  rw [← find?_isSome_iff]
  cases m.find? k <;> simp

theorem exists_find?_of_mem (m : GoMap V) (k : String) (h : k ∈ m.keys) :
    ∃ v, m.find? k = some v ∧ (k, v) ∈ m.bindings := by
  have hs := (find?_isSome_iff m k).mpr h
  cases hf : m.find? k with
  | none => simp [hf] at hs
  | some v => exact ⟨v, rfl, lookup_mem m.bindings k v hf⟩

end GoMap

/-! ## The two paths of the cluster lookup -/

theorem getConnectClusterByName_run_some (s : Service) (n : String) (c : Ptr)
    (h : s.ClientsByCluster.find? n = some c) :
    (getConnectClusterByName n).run s = ((c, none), s) := by
  simp [getConnectClusterByName, GoMap.commaOk, h, StateT.run, bind, StateT.bind, get,
    getThe, MonadStateOf.get, StateT.get, pure, StateT.pure]

theorem getConnectClusterByName_run_none (s : Service) (n : String)
    (h : s.ClientsByCluster.find? n = none) :
    (getConnectClusterByName n).run s = ((Ptr.null, some (notFoundError n)), s) := by
  simp [getConnectClusterByName, GoMap.commaOk, h, StateT.run, bind, StateT.bind, get,
    getThe, MonadStateOf.get, StateT.get, pure, StateT.pure, notFoundError, fmtErrorf,
    StatusNotFound, zapString]

theorem getConnectClusterByName_run_absent (s : Service) (n : String)
    (h : n ∉ s.ClientsByCluster.keys) :
    (getConnectClusterByName n).run s = ((Ptr.null, some (notFoundError n)), s) :=
  getConnectClusterByName_run_none s n ((GoMap.find?_eq_none_iff _ n).mpr h)

theorem getMapValueOrString_some (m : GoMap String) (k f v : String)
    (h : m.find? k = some v) : getMapValueOrString m k f = v := by
  simp [getMapValueOrString, GoMap.commaOk, h]

theorem getMapValueOrString_none (m : GoMap String) (k f : String)
    (h : m.find? k = none) : getMapValueOrString m k f = f := by
  simp [getMapValueOrString, GoMap.commaOk, h]

/-! ## Claims -/

/-- C1: for every service and every name that is a key of `ClientsByCluster`,
`getConnectClusterByName` returns the handle read by `ClientsByCluster[name]`
together with a nil error, and that handle is bound to the name in the
registry. -/
theorem getConnectClusterByName_present (s : Service) (n : String)
    (h : n ∈ s.ClientsByCluster.keys) :
    ((getConnectClusterByName n).run s).1 = (s.ClientsByCluster.index n, none) ∧
    (n, ((getConnectClusterByName n).run s).1.1) ∈ s.ClientsByCluster.bindings := by
  obtain ⟨c, hc, hmem⟩ := GoMap.exists_find?_of_mem s.ClientsByCluster n h
  rw [getConnectClusterByName_run_some s n c hc]
  refine ⟨?_, hmem⟩
  simp [GoMap.index, GoMap.commaOk, hc]

/-- Witness of C1: in the registry `{"prod": handleA, "staging": handleB}` the
lookup of `"prod"` returns `handleA` and no error. -/
theorem getConnectClusterByName_present_witness :
    "prod" ∈ exampleService.ClientsByCluster.keys ∧
    ((getConnectClusterByName "prod").run exampleService).1 = (handleA, none) :=
  ⟨by decide, (getConnectClusterByName_present exampleService "prod" (by decide)).1.trans
    (by decide)⟩

/-- C2: for every service and every name that is not a key of
`ClientsByCluster`, `getConnectClusterByName` returns a nil handle and an error
whose `Status` is 404 (`http.StatusNotFound`) and whose `InternalLogs` hold a
string field `cluster_name` carrying the name exactly as supplied. -/
theorem getConnectClusterByName_absent (s : Service) (n : String)
    (h : n ∉ s.ClientsByCluster.keys) :
    ∃ e : Error, ((getConnectClusterByName n).run s).1 = (Ptr.null, some e) ∧
      e.Status = 404 ∧ e.Status = StatusNotFound ∧
      ∃ f ∈ e.InternalLogs, f.Key = "cluster_name" ∧ f.«Type» = FieldType.StringType ∧
        f.String = n := by
  rw [getConnectClusterByName_run_absent s n h]
  exact ⟨notFoundError n, rfl, rfl, rfl, _, List.mem_singleton.mpr rfl, rfl, rfl, rfl⟩

/-- Witness of C2: in the registry `{"prod": handleA, "staging": handleB}` the
lookup of `"dev"` fails with status 404 and a field carrying `"dev"`. -/
theorem getConnectClusterByName_absent_witness :
    "dev" ∉ exampleService.ClientsByCluster.keys ∧
    ∃ e : Error, ((getConnectClusterByName "dev").run exampleService).1 = (Ptr.null, some e) ∧
      e.Status = 404 ∧ e.Status = StatusNotFound ∧
      ∃ f ∈ e.InternalLogs, f.Key = "cluster_name" ∧ f.«Type» = FieldType.StringType ∧
        f.String = "dev" :=
  ⟨by decide, getConnectClusterByName_absent exampleService "dev" (by decide)⟩

/-- C3: `getConnectClusterByName` returns a non-nil error if and only if the
name is not a key of `ClientsByCluster`, and every error it returns is the
not-found error: status 404, the fixed cause and message, the single field
`cluster_name`, not silent. -/
theorem getConnectClusterByName_error_iff (s : Service) (n : String) :
    (((getConnectClusterByName n).run s).1.2 ≠ none ↔ n ∉ s.ClientsByCluster.keys) ∧
    ∀ e : Error, ((getConnectClusterByName n).run s).1.2 = some e →
      e.Status = StatusNotFound ∧
      e.Err = some "a client for the given cluster name does not exist" ∧
      e.Message = "There's no configured cluster with the given connect cluster name" ∧
      e.InternalLogs = [zapString "cluster_name" n] ∧
      e.IsSilent = false := by
  by_cases h : n ∈ s.ClientsByCluster.keys
  · obtain ⟨c, hc, -⟩ := GoMap.exists_find?_of_mem s.ClientsByCluster n h
    rw [getConnectClusterByName_run_some s n c hc]
    simp [h]
  · rw [getConnectClusterByName_run_absent s n h]
    refine ⟨by simp [h], ?_⟩
    intro e he
    cases he
    exact ⟨rfl, rfl, rfl, rfl, rfl⟩

/-- Witness of C3: the lookup of `"dev"` in the example registry returns an
error, and it is the not-found error. -/
theorem getConnectClusterByName_error_iff_witness :
    ((getConnectClusterByName "dev").run exampleService).1.2 ≠ none ∧
    ((getConnectClusterByName "prod").run exampleService).1.2 = none ∧
    ∃ e : Error, ((getConnectClusterByName "dev").run exampleService).1.2 = some e ∧
      e.Status = StatusNotFound :=
  ⟨(getConnectClusterByName_error_iff exampleService "dev").1.mpr (by decide),
   by decide,
   notFoundError "dev", by decide,
   ((getConnectClusterByName_error_iff exampleService "dev").2 (notFoundError "dev")
     (by decide)).1⟩

/-- C4: for every map, key and fallback, `getMapValueOrString` equals `m[key]`
when the key is a key of the map and equals the fallback otherwise; on
`{"timeout": "30s"}` the key `"timeout"` with fallback `"10s"` gives `"30s"`
and the key `"retries"` with fallback `"3"` gives `"3"`. -/
theorem getMapValueOrString_eq (m : GoMap String) (k f : String) :
    getMapValueOrString m k f = (if k ∈ m.keys then m.index k else f) ∧
    getMapValueOrString exampleMap "timeout" "10s" = "30s" ∧
    getMapValueOrString exampleMap "retries" "3" = "3" := by
  refine ⟨?_, by decide, by decide⟩
  by_cases h : k ∈ m.keys
  · obtain ⟨v, hv, -⟩ := GoMap.exists_find?_of_mem m k h
    rw [getMapValueOrString_some m k f v hv, if_pos h]
    simp [GoMap.index, GoMap.commaOk, hv]
  · rw [getMapValueOrString_none m k f ((GoMap.find?_eq_none_iff m k).mpr h), if_neg h]

/-- C5: in a map with unique keys, for every binding of a key to a stored
string, `getMapValueOrString` returns that stored string unchanged whatever the
fallback; in particular a stored empty string gives the empty string, not the
fallback. -/
theorem getMapValueOrString_stored (m : GoMap String) (k f v : String)
    (hnd : m.keys.Nodup) (h : (k, v) ∈ m.bindings) :
    getMapValueOrString m k f = v ∧
    (v = "" → getMapValueOrString m k f = "") := by
  have hv : getMapValueOrString m k f = v :=
    getMapValueOrString_some m k f v (GoMap.lookup_of_mem_nodup m.bindings k v hnd h)
  exact ⟨hv, fun e => hv.trans e⟩

/-- Witness of C5: on `{"timeout": ""}` the key `"timeout"` with fallback
`"10s"` gives the empty string. -/
theorem getMapValueOrString_stored_witness :
    (GoMap.alloc [("timeout", "")]).keys.Nodup ∧
    (("timeout", "") : String × String) ∈ (GoMap.alloc [("timeout", "")]).bindings ∧
    getMapValueOrString (GoMap.alloc [("timeout", "")]) "timeout" "10s" = "" ∧
    getMapValueOrString (GoMap.alloc [("timeout", "")]) "timeout" "10s" ≠ "10s" :=
  ⟨by decide, by decide,
   (getMapValueOrString_stored (GoMap.alloc [("timeout", "")]) "timeout" "10s" ""
     (by decide) (by decide)).2 rfl,
   by decide⟩

/-- C6: for every key and fallback, `getMapValueOrString` returns the fallback
on an empty map and on the nil map, so the nil map behaves like the empty one;
the function is total, so no read fails. -/
theorem getMapValueOrString_empty (k f : String) :
    getMapValueOrString (GoMap.alloc []) k f = f ∧
    getMapValueOrString GoMap.nilMap k f = f ∧
    getMapValueOrString GoMap.nilMap k f = getMapValueOrString (GoMap.alloc []) k f := by
  have h1 : getMapValueOrString (GoMap.alloc []) k f = f :=
    getMapValueOrString_none _ k f rfl
  have h2 : getMapValueOrString GoMap.nilMap k f = f :=
    getMapValueOrString_none _ k f rfl
  exact ⟨h1, h2, h2.trans h1.symm⟩

/-- C7: for all services and names with the name absent from the registry, the
`Message` of the returned error is the fixed string "There's no configured
cluster with the given connect cluster name", the same for every name and
every registry. -/
theorem getConnectClusterByName_message (s₁ s₂ : Service) (n₁ n₂ : String)
    (h₁ : n₁ ∉ s₁.ClientsByCluster.keys) (h₂ : n₂ ∉ s₂.ClientsByCluster.keys) :
    ∃ e₁ e₂ : Error,
      ((getConnectClusterByName n₁).run s₁).1.2 = some e₁ ∧
      ((getConnectClusterByName n₂).run s₂).1.2 = some e₂ ∧
      e₁.Message = "There's no configured cluster with the given connect cluster name" ∧
      e₂.Message = e₁.Message := by
  rw [getConnectClusterByName_run_absent s₁ n₁ h₁, getConnectClusterByName_run_absent s₂ n₂ h₂]
  exact ⟨notFoundError n₁, notFoundError n₂, rfl, rfl, rfl, rfl⟩

/-- Witness of C7: the lookups of `"dev"` in the example registry and of `""`
in the nil registry carry the same fixed message. -/
theorem getConnectClusterByName_message_witness :
    "dev" ∉ exampleService.ClientsByCluster.keys ∧
    "" ∉ (Service.mk GoMap.nilMap).ClientsByCluster.keys ∧
    ∃ e₁ e₂ : Error,
      ((getConnectClusterByName "dev").run exampleService).1.2 = some e₁ ∧
      ((getConnectClusterByName "").run (Service.mk GoMap.nilMap)).1.2 = some e₂ ∧
      e₁.Message = "There's no configured cluster with the given connect cluster name" ∧
      e₂.Message = e₁.Message :=
  ⟨by decide, by decide,
   getConnectClusterByName_message exampleService (Service.mk GoMap.nilMap) "dev" ""
     (by decide) (by decide)⟩

/-- C8: for every service and every name absent from the registry, the error
returned by `getConnectClusterByName` has `IsSilent` equal to false. -/
theorem getConnectClusterByName_not_silent (s : Service) (n : String)
    (h : n ∉ s.ClientsByCluster.keys) :
    ∃ e : Error, ((getConnectClusterByName n).run s).1.2 = some e ∧ e.IsSilent = false := by
  rw [getConnectClusterByName_run_absent s n h]
  exact ⟨notFoundError n, rfl, rfl⟩

/-- Witness of C8: the error for `"dev"` in the example registry is not
silent. -/
theorem getConnectClusterByName_not_silent_witness :
    "dev" ∉ exampleService.ClientsByCluster.keys ∧
    ∃ e : Error, ((getConnectClusterByName "dev").run exampleService).1.2 = some e ∧
      e.IsSilent = false :=
  ⟨by decide, getConnectClusterByName_not_silent exampleService "dev" (by decide)⟩

/-- C9: `getConnectClusterByName` is referentially transparent: a second call
with the same name, run on the service as the first call left it, returns a
result equal to the first (same handle, or errors equal in status, message,
cause text, log fields and silent flag). -/
theorem getConnectClusterByName_repeat (s : Service) (n : String) :
    ((getConnectClusterByName n).run ((getConnectClusterByName n).run s).2).1 =
      ((getConnectClusterByName n).run s).1 ∧
    ((do let r₁ ← getConnectClusterByName n
         let r₂ ← getConnectClusterByName n
         pure (decide (r₁ = r₂))) : StateM Service Bool).run s = (true, s) := by
  cases h : s.ClientsByCluster.find? n with
  | none =>
    have hr := getConnectClusterByName_run_none s n h
    refine ⟨by rw [hr, hr], ?_⟩
    simp [StateT.run_bind, hr]
  | some c =>
    have hr := getConnectClusterByName_run_some s n c h
    refine ⟨by rw [hr, hr], ?_⟩
    simp [StateT.run_bind, hr]

/-- C10: `getConnectClusterByName` leaves the service as it found it: after the
call, on either path, `ClientsByCluster` is the same map with the same keys and
handles, and a name that was missing is still missing. -/
theorem getConnectClusterByName_frame (s : Service) (n : String) :
    ((getConnectClusterByName n).run s).2 = s ∧
    ((getConnectClusterByName n).run s).2.ClientsByCluster = s.ClientsByCluster ∧
    ((getConnectClusterByName n).run s).2.ClientsByCluster.bindings =
      s.ClientsByCluster.bindings ∧
    (n ∉ s.ClientsByCluster.keys →
      n ∉ ((getConnectClusterByName n).run s).2.ClientsByCluster.keys) := by
  have hs : ((getConnectClusterByName n).run s).2 = s := by
    cases h : s.ClientsByCluster.find? n with
    | none => rw [getConnectClusterByName_run_none s n h]
    | some c => rw [getConnectClusterByName_run_some s n c h]
  rw [hs]
  exact ⟨rfl, rfl, rfl, id⟩

/-- Witness of C10: the failed lookup of `"dev"` leaves the example registry
without `"dev"` and with its two bindings. -/
theorem getConnectClusterByName_frame_witness :
    "dev" ∉ ((getConnectClusterByName "dev").run exampleService).2.ClientsByCluster.keys ∧
    ((getConnectClusterByName "dev").run exampleService).2.ClientsByCluster.bindings =
      [("prod", handleA), ("staging", handleB)] :=
  ⟨(getConnectClusterByName_frame exampleService "dev").2.2.2 (by decide),
   (getConnectClusterByName_frame exampleService "dev").2.2.1.trans rfl⟩

/-- C11: for every service and every name absent from the registry, the empty
string included, the `InternalLogs` of the returned error are exactly one
field, a string field with key `cluster_name` and string value the name. -/
theorem getConnectClusterByName_logs_single (s : Service) (n : String)
    (h : n ∉ s.ClientsByCluster.keys) :
    ∃ (e : Error) (f : Field), ((getConnectClusterByName n).run s).1.2 = some e ∧
      e.InternalLogs = [f] ∧ e.InternalLogs.length = 1 ∧
      f.Key = "cluster_name" ∧ f.«Type» = FieldType.StringType ∧ f.String = n := by
  rw [getConnectClusterByName_run_absent s n h]
  exact ⟨notFoundError n, _, rfl, rfl, rfl, rfl, rfl, rfl⟩

/-- Witness of C11: in the empty registry the lookup of `""` gives the single
field `cluster_name = ""`. -/
theorem getConnectClusterByName_logs_single_witness :
    "" ∉ (Service.mk (GoMap.alloc [])).ClientsByCluster.keys ∧
    ∃ (e : Error) (f : Field),
      ((getConnectClusterByName "").run (Service.mk (GoMap.alloc []))).1.2 = some e ∧
      e.InternalLogs = [f] ∧ e.InternalLogs.length = 1 ∧
      f.Key = "cluster_name" ∧ f.«Type» = FieldType.StringType ∧ f.String = "" :=
  ⟨by decide,
   getConnectClusterByName_logs_single (Service.mk (GoMap.alloc [])) "" (by decide)⟩

/-- C12: in a registry whose every binding holds a non-nil handle, for every
name exactly one of the returned handle and the returned error is nil.  The
lookup does not check the stored handle: on `{"x": nil}` the lookup of `"x"`
returns a nil handle and a nil error. -/
theorem getConnectClusterByName_exactly_one_nil (s : Service) (n : String)
    (hnn : ∀ k v, (k, v) ∈ s.ClientsByCluster.bindings → v ≠ Ptr.null) :
    ((((getConnectClusterByName n).run s).1.1 = Ptr.null ∧
        ((getConnectClusterByName n).run s).1.2 ≠ none) ∨
      (((getConnectClusterByName n).run s).1.1 ≠ Ptr.null ∧
        ((getConnectClusterByName n).run s).1.2 = none)) ∧
    ((getConnectClusterByName "x").run (Service.mk (GoMap.alloc [("x", Ptr.null)]))).1 =
      (Ptr.null, none) := by
  refine ⟨?_, by decide⟩
  by_cases h : n ∈ s.ClientsByCluster.keys
  · obtain ⟨c, hc, hmem⟩ := GoMap.exists_find?_of_mem s.ClientsByCluster n h
    rw [getConnectClusterByName_run_some s n c hc]
    exact Or.inr ⟨hnn n c hmem, rfl⟩
  · rw [getConnectClusterByName_run_absent s n h]
    exact Or.inl ⟨rfl, by simp⟩

/-- Witness of C12: in the example registry both handles are non-nil, the
lookup of `"prod"` returns a handle and no error, and the lookup of `"dev"`
returns an error and no handle. -/
theorem getConnectClusterByName_exactly_one_nil_witness :
    (∀ k v, (k, v) ∈ exampleService.ClientsByCluster.bindings → v ≠ Ptr.null) ∧
    ((((getConnectClusterByName "prod").run exampleService).1.1 = Ptr.null ∧
        ((getConnectClusterByName "prod").run exampleService).1.2 ≠ none) ∨
      (((getConnectClusterByName "prod").run exampleService).1.1 ≠ Ptr.null ∧
        ((getConnectClusterByName "prod").run exampleService).1.2 = none)) ∧
    ((((getConnectClusterByName "dev").run exampleService).1.1 = Ptr.null ∧
        ((getConnectClusterByName "dev").run exampleService).1.2 ≠ none) ∨
      (((getConnectClusterByName "dev").run exampleService).1.1 ≠ Ptr.null ∧
        ((getConnectClusterByName "dev").run exampleService).1.2 = none)) := by
  have hnn : ∀ k v, (k, v) ∈ exampleService.ClientsByCluster.bindings → v ≠ Ptr.null := by
    intro k v hkv
    simp [exampleService, GoMap.bindings, handleA, handleB] at hkv
    rcases hkv with ⟨-, rfl⟩ | ⟨-, rfl⟩ <;> simp
  exact ⟨hnn, (getConnectClusterByName_exactly_one_nil exampleService "prod" hnn).1,
    (getConnectClusterByName_exactly_one_nil exampleService "dev" hnn).1⟩

/-- C13: the not-found error depends only on the requested name: for every
name and every two registries that both lack it, the two lookups return the
same result, a nil handle and errors equal in every field. -/
theorem getConnectClusterByName_registry_independent (s₁ s₂ : Service) (n : String)
    (h₁ : n ∉ s₁.ClientsByCluster.keys) (h₂ : n ∉ s₂.ClientsByCluster.keys) :
    ∃ e₁ e₂ : Error,
      ((getConnectClusterByName n).run s₁).1 = (Ptr.null, some e₁) ∧
      ((getConnectClusterByName n).run s₂).1 = (Ptr.null, some e₂) ∧
      e₁ = e₂ ∧
      e₁.Err = e₂.Err ∧ e₁.Status = e₂.Status ∧ e₁.Message = e₂.Message ∧
      e₁.InternalLogs = e₂.InternalLogs ∧ e₁.IsSilent = e₂.IsSilent := by
  rw [getConnectClusterByName_run_absent s₁ n h₁, getConnectClusterByName_run_absent s₂ n h₂]
  exact ⟨notFoundError n, notFoundError n, rfl, rfl, rfl, rfl, rfl, rfl, rfl, rfl⟩

/-- Witness of C13: the lookup of `"dev"` in the example registry and in the
empty registry return equal errors. -/
theorem getConnectClusterByName_registry_independent_witness :
    "dev" ∉ exampleService.ClientsByCluster.keys ∧
    "dev" ∉ (Service.mk (GoMap.alloc [])).ClientsByCluster.keys ∧
    ∃ e₁ e₂ : Error,
      ((getConnectClusterByName "dev").run exampleService).1 = (Ptr.null, some e₁) ∧
      ((getConnectClusterByName "dev").run (Service.mk (GoMap.alloc []))).1 =
        (Ptr.null, some e₂) ∧
      e₁ = e₂ ∧
      e₁.Err = e₂.Err ∧ e₁.Status = e₂.Status ∧ e₁.Message = e₂.Message ∧
      e₁.InternalLogs = e₂.InternalLogs ∧ e₁.IsSilent = e₂.IsSilent :=
  ⟨by decide, by decide,
   getConnectClusterByName_registry_independent exampleService (Service.mk (GoMap.alloc []))
     "dev" (by decide) (by decide)⟩

/-- C14: chained fallbacks give key priority: for every map, keys `k₁`, `k₂`
and fallback, `getMapValueOrString m k₁ (getMapValueOrString m k₂ f)` is
`m[k₁]` if `k₁` is a key, otherwise `m[k₂]` if `k₂` is a key, otherwise the
fallback; with `k₁ = k₂`, feeding the result back as the fallback changes
nothing. -/
theorem getMapValueOrString_chain (m : GoMap String) (k₁ k₂ f : String) :
    getMapValueOrString m k₁ (getMapValueOrString m k₂ f) =
      (if k₁ ∈ m.keys then m.index k₁ else if k₂ ∈ m.keys then m.index k₂ else f) ∧
    getMapValueOrString m k₁ (getMapValueOrString m k₁ f) = getMapValueOrString m k₁ f := by
  have hidx : ∀ k v, m.find? k = some v → m.index k = v := by
    intro k v hv
    simp [GoMap.index, GoMap.commaOk, hv]
  constructor
  · by_cases h₁ : k₁ ∈ m.keys
    · obtain ⟨v, hv, -⟩ := GoMap.exists_find?_of_mem m k₁ h₁
      rw [getMapValueOrString_some m k₁ _ v hv, if_pos h₁, hidx k₁ v hv]
    · rw [getMapValueOrString_none m k₁ _ ((GoMap.find?_eq_none_iff m k₁).mpr h₁), if_neg h₁]
      by_cases h₂ : k₂ ∈ m.keys
      · obtain ⟨w, hw, -⟩ := GoMap.exists_find?_of_mem m k₂ h₂
        rw [getMapValueOrString_some m k₂ f w hw, if_pos h₂, hidx k₂ w hw]
      · rw [getMapValueOrString_none m k₂ f ((GoMap.find?_eq_none_iff m k₂).mpr h₂), if_neg h₂]
  · cases hf : m.find? k₁ with
    | none =>
      rw [getMapValueOrString_none m k₁ _ hf]
    | some v =>
      rw [getMapValueOrString_some m k₁ _ v hf, getMapValueOrString_some m k₁ f v hf]

end Connect
